import Mathlib

/-
Shallow embedding of src/src/main.c, a Zephyr heartbeat firmware (revision 2).

Modelling conventions:
- Each printk message is recorded as one log entry, without the trailing
  line terminator.
- External Zephyr driver calls (gpio_is_ready_dt, gpio_pin_configure_dt,
  gpio_pin_toggle_dt, k_thread_create, k_msleep) are modelled by their
  documented contracts; their status results are drawn from an environment
  record so that the firmware's handling of them can be analysed.
- init_rutine has no return statement on its success path (it falls off the
  end of a non-void function).  The embedding records the returned value as
  an Option Bool: `some b` when a `return b` statement executes, `none` when
  control falls off the end.  The unspecified value that the caller then
  observes is a free environment parameter `undefRet`.
- main, hb_task and serial_task are embedded as step machines iterated over
  Nat, so that their infinite loops become total trace functions.
-/

/-- Build-time resolved GPIO descriptor: the `struct gpio_dt_spec` obtained
from `GPIO_DT_SPEC_GET(DT_ALIAS(heartbeat), gpios)` (controller, pin and
devicetree flags). -/
structure GpioDtSpec where
  port : Nat
  pin : Nat
  dt_flags : Nat
  deriving DecidableEq

/-- Value passed through one of the three `void *` parameter slots of
`k_thread_create`. -/
inductive KParam where
  | null
  | led (spec : GpioDtSpec)
  | raw (n : Nat)
  deriving DecidableEq

/-- Thread start-delay argument of `k_thread_create`; `K_NO_WAIT` starts the
thread immediately. -/
inductive KTimeout where
  | noWait
  | ms (n : Nat)
  deriving DecidableEq

/-- Observable event produced by a task body: a GPIO toggle of a given pin,
or a timed suspension of a given number of milliseconds. -/
inductive Event where
  | toggle (spec : GpioDtSpec)
  | sleep (ms : Nat)
  deriving DecidableEq

/-- HB_TASK_PRIORITY from main.c line 15. -/
def HB_TASK_PRIORITY : Int := 5

/-- SERIAL_TASK_PRIORITY from main.c line 16. -/
def SERIAL_TASK_PRIORITY : Int := 6

/-- Pin-configuration flag; the firmware only ever uses `GPIO_OUTPUT_ACTIVE`. -/
inductive GpioFlags where
  | outputActive
  deriving DecidableEq

/-- GPIO_OUTPUT_ACTIVE: configure the pin as an output driven to its active
level. -/
def GPIO_OUTPUT_ACTIVE : GpioFlags := GpioFlags.outputActive

/-- Boot-time environment: the results the external GPIO driver returns to
the firmware, the value the missing return in init_rutine happens to yield,
and the build-time resolved heartbeat LED binding. -/
structure BootEnv where
  ready : Bool
  cfgStatus : Int
  undefRet : Bool
  hb_led : GpioDtSpec
  deriving DecidableEq

/-- Driver call `gpio_is_ready_dt(&hb_led)`: reports whether the underlying
GPIO controller is ready. -/
def gpio_is_ready_dt (env : BootEnv) : Bool :=
  env.ready

/-- Driver call `gpio_pin_configure_dt(&hb_led, flags)`: returns the driver's
status and the line level after the call.  On success (status >= 0) with
`GPIO_OUTPUT_ACTIVE` the line is driven to its active level (`true`); on
failure the line is left unchanged. -/
def gpio_pin_configure_dt (env : BootEnv) (flags : GpioFlags) (line : Bool) :
    Int × Bool :=
  (env.cfgStatus,
   if 0 ≤ env.cfgStatus ∧ flags = GPIO_OUTPUT_ACTIVE then true else line)

/-- Driver call `gpio_pin_toggle_dt(led_spec)`: inverts the line level and
returns a status code (drawn from the environment). -/
def gpio_pin_toggle_dt (status : Int) (line : Bool) : Bool × Int :=
  (!line, status)

/-- Result of one run of init_rutine: the value returned (`none` when control
falls off the end of the function without a return statement), the printk
lines emitted, and the line level afterwards. -/
structure InitResult where
  ret : Option Bool
  log : List String
  line : Bool
  deriving DecidableEq

/-- Embedding of `init_rutine` (main.c lines 90-106).  The ready check and
the configuration call are performed in source order; note the success path
ends at the printk with no return statement. -/
def init_rutine (env : BootEnv) (line0 : Bool) : InitResult :=
  if !(gpio_is_ready_dt env) then
    { ret := some false, log := ["Heartbeat LED GPIO is not ready"],
      line := line0 }
  else
    let c := gpio_pin_configure_dt env GPIO_OUTPUT_ACTIVE line0
    if c.1 < 0 then
      { ret := some false, log := ["Failed to configure heartbeat LED GPIO"],
        line := c.2 }
    else
      { ret := none, log := ["Initialization complete"], line := c.2 }

/-- Value main actually observes from `init_rutine( ) == true`: the returned
Bool when a return statement executed, otherwise the unspecified value left
by the fall-through. -/
def initObserved (env : BootEnv) (line0 : Bool) : Bool :=
  match (init_rutine env line0).ret with
  | some b => b
  | none => env.undefRet

/-- The two task entry points passed to `k_thread_create`. -/
inductive TaskName where
  | heartbeat
  | serial
  deriving DecidableEq

/-- Record of one `k_thread_create` call: entry point, the three parameter
slots, priority and start delay. -/
structure Spawn where
  task : TaskName
  p1 : KParam
  p2 : KParam
  p3 : KParam
  priority : Int
  delay : KTimeout
  deriving DecidableEq

/-- The `k_thread_create` call for the heartbeat thread (main.c lines 68-69):
entry hb_task, p1 = &hb_led, p2 = p3 = NULL, HB_TASK_PRIORITY, K_NO_WAIT. -/
def hbSpawnRec (env : BootEnv) : Spawn :=
  { task := TaskName.heartbeat, p1 := KParam.led env.hb_led,
    p2 := KParam.null, p3 := KParam.null,
    priority := HB_TASK_PRIORITY, delay := KTimeout.noWait }

/-- The `k_thread_create` call for the serial thread (main.c lines 72-73):
entry serial_task, all parameters NULL, SERIAL_TASK_PRIORITY, K_NO_WAIT. -/
def serialSpawnRec : Spawn :=
  { task := TaskName.serial, p1 := KParam.null,
    p2 := KParam.null, p3 := KParam.null,
    priority := SERIAL_TASK_PRIORITY, delay := KTimeout.noWait }

/-- Control locations of main (main.c lines 63-81): about to call
init_rutine; about to execute the two k_thread_create calls; about to execute
`return 0`; after `return 0`; inside the `while( true );` idle loop. -/
inductive MainPhase where
  | runInit
  | spawnTasks
  | returnZero
  | returned
  | idleLoop
  deriving DecidableEq

/-- State of the boot sequencer: control location, printk lines emitted so
far, the k_thread_create calls executed so far (in order), and the GPIO line
level. -/
structure MainState where
  phase : MainPhase
  log : List String
  spawned : List Spawn
  line : Bool
  deriving DecidableEq

/-- Guard of the idle loop `while( true );` at main.c line 77: the literal
constant true. -/
def mainIdleCond : Bool := true

/-- One step of main: runs init_rutine and branches on its observed value;
executes both k_thread_create calls; reaches `return 0`; or spins in the idle
loop. -/
def mainStep (env : BootEnv) (s : MainState) : MainState :=
  match s.phase with
  | MainPhase.runInit =>
    let r := init_rutine env s.line
    if initObserved env s.line = true then
      { phase := MainPhase.spawnTasks, log := s.log ++ r.log,
        spawned := s.spawned, line := r.line }
    else
      { phase := MainPhase.idleLoop,
        log := s.log ++ r.log ++ ["Initialization failed"],
        spawned := s.spawned, line := r.line }
  | MainPhase.spawnTasks =>
    { s with phase := MainPhase.returnZero,
             spawned := s.spawned ++ [hbSpawnRec env, serialSpawnRec] }
  | MainPhase.returnZero =>
    { s with phase := MainPhase.returned }
  | MainPhase.returned => s
  | MainPhase.idleLoop =>
    if mainIdleCond then s else { s with phase := MainPhase.returnZero }

/-- Initial state of main: about to run init_rutine, nothing logged, nothing
spawned, line at its power-up level. -/
def mainInit (line0 : Bool) : MainState :=
  { phase := MainPhase.runInit, log := [], spawned := [], line := line0 }

/-- Trace of main: the state after n steps of mainStep. -/
def mainTrace (env : BootEnv) (line0 : Bool) : Nat → MainState
  | 0 => mainInit line0
  | n + 1 => mainStep env (mainTrace env line0 n)

/-- Post-boot environment of the heartbeat task: the status code returned by
each successive gpio_pin_toggle_dt call. -/
structure HbEnv where
  toggleStatus : Nat → Int

/-- State of the heartbeat task: line level, total milliseconds slept,
events performed, printk lines emitted, and whether the function returned. -/
structure HbState where
  line : Bool
  elapsed : Nat
  events : List Event
  log : List String
  returned : Bool
  deriving DecidableEq

/-- Cast of the first `void *` parameter to `struct gpio_dt_spec *`
(main.c line 120); a non-LED value yields an arbitrary descriptor, as the C
cast is unchecked. -/
def castToSpec : KParam → GpioDtSpec
  | KParam.led s => s
  | _ => { port := 0, pin := 0, dt_flags := 0 }

/-- Guard of the heartbeat loop `while ( true )` at main.c line 122: the
literal constant true. -/
def hbLoopCond : Bool := true

/-- One iteration of the heartbeat loop (main.c lines 122-126): if the guard
holds, call gpio_pin_toggle_dt (its status result is discarded) and then
k_msleep(1000); otherwise fall out of the loop and return. -/
def hbStep (env : HbEnv) (spec : GpioDtSpec) (iter : Nat) (s : HbState) :
    HbState :=
  if s.returned then s
  else if hbLoopCond then
    let t := gpio_pin_toggle_dt (env.toggleStatus iter) s.line
    { line := t.1, elapsed := s.elapsed + 1000,
      events := s.events ++ [Event.toggle spec, Event.sleep 1000],
      log := s.log, returned := false }
  else { s with returned := true }

/-- State of the heartbeat task on entry: given line level, no time elapsed,
no events, no log, not returned. -/
def hbInit (line0 : Bool) : HbState :=
  { line := line0, elapsed := 0, events := [], log := [], returned := false }

/-- Trace of the heartbeat loop: state after n iterations. -/
def hbRun (env : HbEnv) (spec : GpioDtSpec) (line0 : Bool) : Nat → HbState
  | 0 => hbInit line0
  | n + 1 => hbStep env spec n (hbRun env spec line0 n)

/-- Embedding of `hb_task` (main.c lines 118-127): p1 is cast to the LED
descriptor; p2 and p3 are received but never read, exactly as in the
source. -/
def hb_task (p1 p2 p3 : KParam) (env : HbEnv) (line0 : Bool) :
    Nat → HbState :=
  hbRun env (castToSpec p1) line0

/-- State of the serial task: total milliseconds slept, the GPIO line level
(tracked to state the frame condition), bytes of serial I/O performed,
events, and whether the function returned. -/
structure SerialState where
  elapsed : Nat
  line : Bool
  serialOut : List Nat
  events : List Event
  returned : Bool
  deriving DecidableEq

/-- Guard of the serial loop `while ( true )` at main.c line 141: the literal
constant true. -/
def serialLoopCond : Bool := true

/-- One iteration of the serial loop (main.c lines 141-144): if the guard
holds, the body is just k_msleep(500); otherwise fall out and return. -/
def serialStep (s : SerialState) : SerialState :=
  if s.returned then s
  else if serialLoopCond then
    { s with elapsed := s.elapsed + 500,
             events := s.events ++ [Event.sleep 500] }
  else { s with returned := true }

/-- State of the serial task on entry. -/
def serialInit (line0 : Bool) : SerialState :=
  { elapsed := 0, line := line0, serialOut := [], events := [],
    returned := false }

/-- Embedding of `serial_task` (main.c lines 138-145): all three parameters
are received but never read. -/
def serial_task (p1 p2 p3 : KParam) (line0 : Bool) : Nat → SerialState
  | 0 => serialInit line0
  | n + 1 => serialStep (serial_task p1 p2 p3 line0 n)

/-- Concrete environment: driver not ready. -/
def envNotReady : BootEnv :=
  { ready := false, cfgStatus := 0, undefRet := true,
    hb_led := { port := 0, pin := 13, dt_flags := 1 } }

/-- Concrete environment: driver ready, configuration rejected with -22. -/
def envCfgFail : BootEnv :=
  { ready := true, cfgStatus := -22, undefRet := true,
    hb_led := { port := 0, pin := 13, dt_flags := 1 } }

/-- Concrete environment: driver ready, configuration succeeds, and the
unspecified fall-through value happens to compare equal to true. -/
def envOkTrue : BootEnv :=
  { ready := true, cfgStatus := 0, undefRet := true,
    hb_led := { port := 0, pin := 13, dt_flags := 1 } }

/-- Concrete environment: driver ready, configuration succeeds, and the
unspecified fall-through value happens to compare equal to false. -/
def envOkFalse : BootEnv :=
  { ready := true, cfgStatus := 0, undefRet := false,
    hb_led := { port := 0, pin := 13, dt_flags := 1 } }

/-- Helper: when init_rutine returned by an executed return statement, that
value was false. -/
lemma init_rutine_ret_ne_true (env : BootEnv) (line0 : Bool) :
    (init_rutine env line0).ret ≠ some true := by
  unfold init_rutine
  by_cases h : gpio_is_ready_dt env
  · by_cases h2 : (gpio_pin_configure_dt env GPIO_OUTPUT_ACTIVE line0).1 < 0
    · simp [h, h2]
    · simp [h, h2]
  · simp [h]

/-- Helper: a run of init_rutine that executes `return false` leaves the line
level unchanged. -/
lemma init_rutine_fail_line (env : BootEnv) (line0 : Bool)
    (h : (init_rutine env line0).ret = some false) :
    (init_rutine env line0).line = line0 := by
  unfold init_rutine gpio_pin_configure_dt at h ⊢
  by_cases hr : gpio_is_ready_dt env
  · by_cases hc : env.cfgStatus < 0
    · have hn : ¬ (0 ≤ env.cfgStatus) := by omega
      simp [hr, hc, hn]
    · simp [hr, hc] at h
  · simp [hr]

/-- Helper: if init_rutine executed `return false` then main observes false. -/
lemma initObserved_of_ret_false (env : BootEnv) (line0 : Bool)
    (h : (init_rutine env line0).ret = some false) :
    initObserved env line0 = false := by
  unfold initObserved
  rw [h]

/-- Helper: first step of main when the observed init value is false. -/
lemma mainTrace_fail_one (env : BootEnv) (line0 : Bool)
    (h : initObserved env line0 = false) :
    mainTrace env line0 1 =
      { phase := MainPhase.idleLoop,
        log := (init_rutine env line0).log ++ ["Initialization failed"],
        spawned := [], line := (init_rutine env line0).line } := by
  show mainStep env (mainInit line0) = _
  unfold mainStep mainInit
  simp [h]

/-- Helper: after a failed check the idle loop is absorbing, so the trace is
constant from step 1 on. -/
lemma mainTrace_fail_stable (env : BootEnv) (line0 : Bool)
    (h : initObserved env line0 = false) :
    ∀ n : Nat, mainTrace env line0 (n + 1) = mainTrace env line0 1 := by
  intro n
  induction n with
  | zero => rfl
  | succ m ih =>
    show mainStep env (mainTrace env line0 (m + 1)) = _
    rw [ih, mainTrace_fail_one env line0 h]
    simp [mainStep, mainIdleCond]

/-- Helper: first step of main when the observed init value is true. -/
lemma mainTrace_succ_one (env : BootEnv) (line0 : Bool)
    (h : initObserved env line0 = true) :
    mainTrace env line0 1 =
      { phase := MainPhase.spawnTasks, log := (init_rutine env line0).log,
        spawned := [], line := (init_rutine env line0).line } := by
  show mainStep env (mainInit line0) = _
  unfold mainStep mainInit
  simp [h]

/-- Helper: second step of main on the success branch executes both
k_thread_create calls. -/
lemma mainTrace_succ_two (env : BootEnv) (line0 : Bool)
    (h : initObserved env line0 = true) :
    mainTrace env line0 2 =
      { phase := MainPhase.returnZero, log := (init_rutine env line0).log,
        spawned := [hbSpawnRec env, serialSpawnRec],
        line := (init_rutine env line0).line } := by
  show mainStep env (mainTrace env line0 1) = _
  rw [mainTrace_succ_one env line0 h]
  simp [mainStep]

/-- Helper: third step of main on the success branch executes `return 0`. -/
lemma mainTrace_succ_three (env : BootEnv) (line0 : Bool)
    (h : initObserved env line0 = true) :
    mainTrace env line0 3 =
      { phase := MainPhase.returned, log := (init_rutine env line0).log,
        spawned := [hbSpawnRec env, serialSpawnRec],
        line := (init_rutine env line0).line } := by
  show mainStep env (mainTrace env line0 2) = _
  rw [mainTrace_succ_two env line0 h]
  simp [mainStep]

/-- Helper: the returned phase is absorbing, so on the success branch the
trace is constant from step 3 on. -/
lemma mainTrace_succ_stable (env : BootEnv) (line0 : Bool)
    (h : initObserved env line0 = true) :
    ∀ n : Nat, mainTrace env line0 (n + 3) = mainTrace env line0 3 := by
  intro n
  induction n with
  | zero => rfl
  | succ m ih =>
    show mainStep env (mainTrace env line0 (m + 3)) = _
    rw [ih, mainTrace_succ_three env line0 h]
    simp [mainStep]

/-- Helper: the heartbeat loop guard is the constant true, so hb_task never
takes the exit transition. -/
lemma hbRun_returned_false (env : HbEnv) (spec : GpioDtSpec) (line0 : Bool) :
    ∀ n : Nat, (hbRun env spec line0 n).returned = false := by
  intro n
  induction n with
  | zero => rfl
  | succ m ih =>
    show (hbStep env spec m (hbRun env spec line0 m)).returned = false
    simp [hbStep, ih, hbLoopCond]

/-- Helper: explicit form of one heartbeat iteration. -/
lemma hbRun_succ_eq (env : HbEnv) (spec : GpioDtSpec) (line0 : Bool)
    (n : Nat) :
    hbRun env spec line0 (n + 1) =
      { line := !(hbRun env spec line0 n).line,
        elapsed := (hbRun env spec line0 n).elapsed + 1000,
        events := (hbRun env spec line0 n).events ++
          [Event.toggle spec, Event.sleep 1000],
        log := (hbRun env spec line0 n).log,
        returned := false } := by
  show hbStep env spec n (hbRun env spec line0 n) = _
  simp [hbStep, hbRun_returned_false, hbLoopCond, gpio_pin_toggle_dt]

/-- Helper: the heartbeat loop body contains no printk, so its log stays
empty. -/
lemma hbRun_log_nil (env : HbEnv) (spec : GpioDtSpec) (line0 : Bool) :
    ∀ n : Nat, (hbRun env spec line0 n).log = [] := by
  intro n
  induction n with
  | zero => rfl
  | succ m ih =>
    rw [hbRun_succ_eq]
    exact ih

/-- Helper: the heartbeat trace does not depend on the status codes the
driver returns from gpio_pin_toggle_dt. -/
lemma hbRun_status_irrelevant (tr tr2 : Nat → Int) (spec : GpioDtSpec)
    (line0 : Bool) :
    ∀ n : Nat,
      hbRun { toggleStatus := tr } spec line0 n =
      hbRun { toggleStatus := tr2 } spec line0 n := by
  intro n
  induction n with
  | zero => rfl
  | succ m ih =>
    rw [hbRun_succ_eq, hbRun_succ_eq, ih]

/-- Helper: the serial loop guard is the constant true and its body touches
nothing but the elapsed time and its event list. -/
lemma serial_task_invariant (p1 p2 p3 : KParam) (line0 : Bool) :
    ∀ n : Nat,
      (serial_task p1 p2 p3 line0 n).returned = false ∧
      (serial_task p1 p2 p3 line0 n).line = line0 ∧
      (serial_task p1 p2 p3 line0 n).serialOut = [] := by
  intro n
  induction n with
  | zero => exact ⟨rfl, rfl, rfl⟩
  | succ m ih =>
    show (serialStep (serial_task p1 p2 p3 line0 m)).returned = false ∧
         (serialStep (serial_task p1 p2 p3 line0 m)).line = line0 ∧
         (serialStep (serial_task p1 p2 p3 line0 m)).serialOut = []
    simp [serialStep, ih.1, serialLoopCond, ih.2.1, ih.2.2]

/-- Helper: explicit form of one serial iteration. -/
lemma serial_task_succ_eq (p1 p2 p3 : KParam) (line0 : Bool) (n : Nat) :
    serial_task p1 p2 p3 line0 (n + 1) =
      { elapsed := (serial_task p1 p2 p3 line0 n).elapsed + 500,
        line := (serial_task p1 p2 p3 line0 n).line,
        serialOut := (serial_task p1 p2 p3 line0 n).serialOut,
        events := (serial_task p1 p2 p3 line0 n).events ++ [Event.sleep 500],
        returned := false } := by
  show serialStep (serial_task p1 p2 p3 line0 n) = _
  have h := (serial_task_invariant p1 p2 p3 line0 n).1
  simp [serialStep, h, serialLoopCond]

/-- Claim C1 (code_bug evidence): with the driver ready and the configuration
call succeeding (status 0), init_rutine does log "Initialization complete",
but it executes no return statement at all (ret = none), instead of returning
true as the claim, the spec and the function's own doc comment require. -/
theorem init_success_missing_return :
    (init_rutine envOkTrue false).log = ["Initialization complete"] ∧
    (init_rutine envOkTrue false).ret = none ∧
    (init_rutine envOkTrue false).ret ≠ some true := by
  refine ⟨rfl, rfl, ?_⟩
  exact init_rutine_ret_ne_true envOkTrue false

/-- Claim C2: init_rutine executes `return false` exactly when the driver is
not ready or the configuration call returns a negative status, and the printk
output is exactly the one diagnostic line matching the failure kind ("Heartbeat
LED GPIO is not ready" when not ready, "Failed to configure heartbeat LED
GPIO" when the configuration is rejected); there is no other failure kind. -/
theorem init_failure_iff (env : BootEnv) (line0 : Bool) :
    ((init_rutine env line0).ret = some false ↔
      (env.ready = false ∨ env.cfgStatus < 0)) ∧
    (init_rutine env line0).log =
      (if env.ready = false then ["Heartbeat LED GPIO is not ready"]
       else if env.cfgStatus < 0 then
         ["Failed to configure heartbeat LED GPIO"]
       else ["Initialization complete"]) := by
  unfold init_rutine gpio_is_ready_dt gpio_pin_configure_dt
  by_cases hr : env.ready
  · by_cases hc : env.cfgStatus < 0
    · simp [hr, hc]
    · simp [hr, hc]
  · simp [hr]

/-- Claim C2 witness: instantiation at the not-ready environment. -/
theorem init_failure_iff_witness :
    ((init_rutine envNotReady true).ret = some false ↔
      (envNotReady.ready = false ∨ envNotReady.cfgStatus < 0)) ∧
    (init_rutine envNotReady true).log =
      (if envNotReady.ready = false then ["Heartbeat LED GPIO is not ready"]
       else if envNotReady.cfgStatus < 0 then
         ["Failed to configure heartbeat LED GPIO"]
       else ["Initialization complete"]) :=
  init_failure_iff envNotReady true

/-- Claim C3: whenever init_rutine reports failure (executes `return false`),
main logs the "Initialization failed" diagnostic, never executes either
k_thread_create call, enters the idle loop and never leaves it, and the GPIO
line level never changes after the failure point (the whole state is frozen
from step 1 on). -/
theorem gate_failure_halts (env : BootEnv) (line0 : Bool)
    (h : (init_rutine env line0).ret = some false) :
    ∀ n : Nat,
      "Initialization failed" ∈ (mainTrace env line0 (n + 1)).log ∧
      (mainTrace env line0 n).spawned = [] ∧
      (mainTrace env line0 (n + 1)).phase = MainPhase.idleLoop ∧
      (mainTrace env line0 (n + 1)).line = line0 ∧
      mainTrace env line0 (n + 1) = mainTrace env line0 1 := by
  intro n
  have ho : initObserved env line0 = false := initObserved_of_ret_false env line0 h
  have hst : mainTrace env line0 (n + 1) = mainTrace env line0 1 :=
    mainTrace_fail_stable env line0 ho n
  have h1 := mainTrace_fail_one env line0 ho
  refine ⟨?_, ?_, ?_, ?_, hst⟩
  · rw [hst, h1]
    simp
  · cases n with
    | zero => rfl
    | succ m =>
      have := mainTrace_fail_stable env line0 ho m
      rw [this, h1]
  · rw [hst, h1]
  · rw [hst, h1]
    exact init_rutine_fail_line env line0 h

/-- Claim C3 witness: instantiation at the not-ready environment, step 2. -/
theorem gate_failure_halts_witness :
    (init_rutine envNotReady true).ret = some false ∧
    ("Initialization failed" ∈ (mainTrace envNotReady true 3).log ∧
      (mainTrace envNotReady true 2).spawned = [] ∧
      (mainTrace envNotReady true 3).phase = MainPhase.idleLoop ∧
      (mainTrace envNotReady true 3).line = true ∧
      mainTrace envNotReady true 3 = mainTrace envNotReady true 1) :=
  ⟨by decide, gate_failure_halts envNotReady true (by decide) 2⟩

/-- Claim C4: whenever main observes a true result from init_rutine, it
executes exactly the two k_thread_create calls, once each, in order: the
heartbeat thread with &hb_led as p1 at HB_TASK_PRIORITY (5) and the serial
thread at SERIAL_TASK_PRIORITY (6), both with K_NO_WAIT (no startup delay),
and the heartbeat priority is numerically lower than the serial priority. -/
theorem gate_success_spawns (env : BootEnv) (line0 : Bool)
    (h : initObserved env line0 = true) :
    (mainTrace env line0 1).spawned = [] ∧
    (∀ n : Nat, 2 ≤ n →
      (mainTrace env line0 n).spawned = [hbSpawnRec env, serialSpawnRec] ∧
      List.countP (fun sp => decide (sp.task = TaskName.heartbeat))
        (mainTrace env line0 n).spawned = 1 ∧
      List.countP (fun sp => decide (sp.task = TaskName.serial))
        (mainTrace env line0 n).spawned = 1) ∧
    (hbSpawnRec env).p1 = KParam.led env.hb_led ∧
    (hbSpawnRec env).priority = HB_TASK_PRIORITY ∧
    serialSpawnRec.priority = SERIAL_TASK_PRIORITY ∧
    HB_TASK_PRIORITY = 5 ∧
    SERIAL_TASK_PRIORITY = 6 ∧
    HB_TASK_PRIORITY < SERIAL_TASK_PRIORITY ∧
    (hbSpawnRec env).delay = KTimeout.noWait ∧
    serialSpawnRec.delay = KTimeout.noWait := by
  refine ⟨?_, ?_, rfl, rfl, rfl, rfl, rfl, by decide, rfl, rfl⟩
  · rw [mainTrace_succ_one env line0 h]
  · intro n hn
    have key : (mainTrace env line0 n).spawned =
        [hbSpawnRec env, serialSpawnRec] := by
      rcases Nat.exists_eq_add_of_le hn with ⟨k, rfl⟩
      cases k with
      | zero => rw [mainTrace_succ_two env line0 h]
      | succ m =>
        have he : 2 + (m + 1) = m + 3 := by omega
        rw [he, mainTrace_succ_stable env line0 h m,
            mainTrace_succ_three env line0 h]
    refine ⟨key, ?_, ?_⟩ <;>
      rw [key] <;>
      simp [List.countP_cons, hbSpawnRec, serialSpawnRec]

/-- Claim C4 witness: instantiation at the environment where the driver is
ready, configuration succeeds and the fall-through value reads as true. -/
theorem gate_success_spawns_witness :
    initObserved envOkTrue false = true ∧
    (mainTrace envOkTrue false 2).spawned =
      [hbSpawnRec envOkTrue, serialSpawnRec] :=
  ⟨by decide,
   ((gate_success_spawns envOkTrue false (by decide)).2.1 2 (by decide)).1⟩

/-- Claim C5: hb_task never takes the exit transition (returned is always
false), and every iteration toggles the bound line and then suspends for
exactly 1000 time-units, forever. -/
theorem hb_task_forever (p1 p2 p3 : KParam) (env : HbEnv) (line0 : Bool)
    (n : Nat) :
    (hb_task p1 p2 p3 env line0 n).returned = false ∧
    (hb_task p1 p2 p3 env line0 (n + 1)).line =
      !((hb_task p1 p2 p3 env line0 n).line) ∧
    (hb_task p1 p2 p3 env line0 (n + 1)).elapsed =
      (hb_task p1 p2 p3 env line0 n).elapsed + 1000 ∧
    (hb_task p1 p2 p3 env line0 (n + 1)).events =
      (hb_task p1 p2 p3 env line0 n).events ++
        [Event.toggle (castToSpec p1), Event.sleep 1000] := by
  simp only [hb_task]
  refine ⟨hbRun_returned_false env (castToSpec p1) line0 n, ?_, ?_, ?_⟩ <;>
    rw [hbRun_succ_eq]

/-- Claim C6: the status code from gpio_pin_toggle_dt is discarded — the
heartbeat trace is identical for any two status assignments — and hb_task
surfaces no runtime failure (its log stays empty). -/
theorem hb_toggle_status_ignored (tr tr2 : Nat → Int) (p1 p2 p3 : KParam)
    (line0 : Bool) (n : Nat) :
    hb_task p1 p2 p3 { toggleStatus := tr } line0 n =
      hb_task p1 p2 p3 { toggleStatus := tr2 } line0 n ∧
    (hb_task p1 p2 p3 { toggleStatus := tr } line0 n).log = [] := by
  simp only [hb_task]
  exact ⟨hbRun_status_irrelevant tr tr2 (castToSpec p1) line0 n,
         hbRun_log_nil { toggleStatus := tr } (castToSpec p1) line0 n⟩

/-- Claim C7 counterexample: on the boot sequence where init_rutine succeeds
and the unspecified fall-through value reads as true, main reaches the
`return 0` statement after three steps, so that statement is not unreachable
on every execution path. -/
theorem main_returns_on_success_counterexample :
    (mainTrace envOkTrue false 3).phase = MainPhase.returned ∧
    "Initialization complete" ∈ (mainTrace envOkTrue false 3).log := by
  decide

/-- Claim C7 (amended): the `return 0` statement of main is unreachable on
the failure branch, where main spins in the idle loop forever; on the branch
where the observed init value is true, main does reach `return 0` (from step
3 on). -/
theorem main_return_unreachable_amended (env : BootEnv) (line0 : Bool) :
    (initObserved env line0 = false →
      ∀ n : Nat, (mainTrace env line0 n).phase ≠ MainPhase.returned) ∧
    (initObserved env line0 = true →
      ∀ n : Nat, (mainTrace env line0 (n + 3)).phase = MainPhase.returned) := by
  constructor
  · intro h n
    cases n with
    | zero => simp [mainTrace, mainInit]
    | succ m =>
      rw [mainTrace_fail_stable env line0 h m, mainTrace_fail_one env line0 h]
      simp
  · intro h n
    rw [mainTrace_succ_stable env line0 h n, mainTrace_succ_three env line0 h]

/-- Claim C7 witness: the failure branch never reaches `return 0` (checked at
step 5 of a not-ready boot) and the observed-true branch reaches it at step
4. -/
theorem main_return_amended_witness :
    (mainTrace envNotReady true 5).phase ≠ MainPhase.returned ∧
    (mainTrace envOkTrue false 4).phase = MainPhase.returned :=
  ⟨(main_return_unreachable_amended envNotReady true).1 (by decide) 5,
   (main_return_unreachable_amended envOkTrue false).2 (by decide) 1⟩

/-- Claim C8: serial_task never returns, never changes the GPIO line level,
performs no serial I/O, and each iteration only suspends for 500 time-units
(appending exactly one sleep event). -/
theorem serial_task_frame (p1 p2 p3 : KParam) (line0 : Bool) (n : Nat) :
    (serial_task p1 p2 p3 line0 n).returned = false ∧
    (serial_task p1 p2 p3 line0 n).line = line0 ∧
    (serial_task p1 p2 p3 line0 n).serialOut = [] ∧
    (serial_task p1 p2 p3 line0 (n + 1)).elapsed =
      (serial_task p1 p2 p3 line0 n).elapsed + 500 ∧
    (serial_task p1 p2 p3 line0 (n + 1)).events =
      (serial_task p1 p2 p3 line0 n).events ++ [Event.sleep 500] := by
  obtain ⟨h1, h2, h3⟩ := serial_task_invariant p1 p2 p3 line0 n
  refine ⟨h1, h2, h3, ?_, ?_⟩ <;> rw [serial_task_succ_eq]

/-- Claim C9: the toggle operation used by the heartbeat task alternates the
line deterministically — applying gpio_pin_toggle_dt twice restores the
original level, each hb_task iteration inverts the line, and two iterations
restore it. -/
theorem toggle_alternates (st1 st2 : Int) (l : Bool) (p1 p2 p3 : KParam)
    (env : HbEnv) (line0 : Bool) (n : Nat) :
    (gpio_pin_toggle_dt st2 (gpio_pin_toggle_dt st1 l).1).1 = l ∧
    (hb_task p1 p2 p3 env line0 (n + 1)).line =
      !((hb_task p1 p2 p3 env line0 n).line) ∧
    (hb_task p1 p2 p3 env line0 (n + 2)).line =
      (hb_task p1 p2 p3 env line0 n).line := by
  refine ⟨by simp [gpio_pin_toggle_dt], ?_, ?_⟩
  · simp only [hb_task]
    rw [hbRun_succ_eq]
  · simp only [hb_task]
    rw [hbRun_succ_eq, hbRun_succ_eq]
    simp

/-- Claim C10: hb_task never reads its second and third parameters, so two
runs that agree on p1, the toggle-status environment and the initial line
level produce identical traces whatever p2 and p3 are. -/
theorem hb_task_independent_of_p2_p3 (p1 p2 p3 q2 q3 : KParam) (env : HbEnv)
    (line0 : Bool) (n : Nat) :
    hb_task p1 p2 p3 env line0 n = hb_task p1 q2 q3 env line0 n := rfl
